import Mathlib

/-!
Shallow embedding of the ratio-computation pipeline of
`src/pages/Prediction.py` (the live code at the bottom of the file:
`safe_div`, the empty-statement gate, the transposes, the eight-entry
`ratios` dict, and the `fillna(0)` post-step).

Python floats are modelled exactly: a finite value is a rational, and the
special values NaN, +inf and -inf are explicit constructors, so the
truthiness, `float()` conversion and IEEE division behaviour that
`safe_div` relies on are captured faithfully (rounding aside).
-/

/-- A Python value as it can appear in a statement cell or as an operand of
`safe_div`: a finite number (int or float, modelled exactly as a rational),
IEEE NaN, the two infinities, Python `None`, or a non-numeric string (a
value on which `float()` raises and which is truthy). -/
inductive PyVal where
  | num (q : ℚ)
  | nan
  | inf
  | ninf
  | pyNone
  | nonNumStr
  deriving DecidableEq, Repr

/-- The result of a Python float computation: a finite value (exact
rational), NaN, or a signed infinity. -/
inductive PyFloat where
  | fin (q : ℚ)
  | nan
  | inf
  | ninf
  deriving DecidableEq, Repr

/-- Whether a `PyVal` is a finite number. -/
def PyVal.isNum : PyVal → Bool
  | .num _ => true
  | _ => false

/-- Whether a `PyFloat` is finite (neither NaN nor an infinity). -/
def PyFloat.isFinite : PyFloat → Bool
  | .fin _ => true
  | _ => false

/-- Python truthiness of a value: `0` and `None` are falsy; NaN, the
infinities, nonzero numbers and non-empty strings are truthy. -/
def pyTruthy : PyVal → Bool
  | .num q => q != 0
  | .nan => true
  | .inf => true
  | .ninf => true
  | .pyNone => false
  | .nonNumStr => true

/-- The Python comparison `b != 0`: false only for the number zero (note
`nan != 0`, `None != 0` and `"x" != 0` are all `True` in Python). -/
def pyNeZero : PyVal → Bool
  | .num q => q != 0
  | _ => true

/-- The Python conversion `float(x)`: succeeds on numbers, NaN and the
infinities; raises (`none` here) on `None` and on a non-numeric string. -/
def pyFloatConv : PyVal → Option PyFloat
  | .num q => some (.fin q)
  | .nan => some .nan
  | .inf => some .inf
  | .ninf => some .ninf
  | .pyNone => none
  | .nonNumStr => none

/-- Python float division `x / y` at the special-value level: raises
`ZeroDivisionError` (`none` here) when the divisor is the float zero, and
otherwise follows IEEE-754 semantics for NaN and the infinities (a signed
zero is collapsed to `0`). A finite quotient is modelled as the exact
rational: float rounding, and the overflow of a finite-by-finite quotient
to an infinity that real double division can produce, are idealized away,
so finiteness of the result of a finite division is a property of this
ideal model only, not of the program. -/
def pyDiv (x y : PyFloat) : Option PyFloat :=
  match y with
  | .fin q =>
    if q = 0 then none
    else
      match x with
      | .fin p => some (.fin (p / q))
      | .nan => some .nan
      | .inf => some (if 0 < q then .inf else .ninf)
      | .ninf => some (if 0 < q then .ninf else .inf)
  | .nan => some .nan
  | .inf =>
    match x with
    | .fin _ => some (.fin 0)
    | _ => some .nan
  | .ninf =>
    match x with
    | .fin _ => some (.fin 0)
    | _ => some .nan

/-- Embedding of `safe_div` (src/pages/Prediction.py, live code):
`try: return float(a) / float(b) if a and b and b != 0 else 0
 except: return 0`.
The guard is Python truthiness of both operands plus `b != 0`; any
exception from the conversions or the division is absorbed into `0`. -/
def safe_div (a b : PyVal) : PyFloat :=
  if pyTruthy a && pyTruthy b && pyNeZero b then
    match pyFloatConv a, pyFloatConv b with
    | some fa, some fb =>
      match pyDiv fa fb with
      | some r => r
      | none => .fin 0
    | _, _ => .fin 0
  else .fin 0

/-- Errors that can escape the core transform: the empty-statement gate
(`MissingDataError` of the spec), a pandas `KeyError` from indexing a
missing column, an `IndexError` from taking the first row of an empty
series, and a `TypeError` from adding incompatible values. -/
inductive CoreError where
  | missingData
  | keyError
  | indexError
  | typeError
  deriving DecidableEq, Repr

/-- Python `+` on two statement values, as used for
`bal.get("short/long term debt", [0])[0] + bal.get("long term debt", [0])[0]`:
numeric addition with IEEE NaN/infinity propagation; adding `None`, or
mixing a string with a number, raises `TypeError`. -/
def pyAdd : PyVal → PyVal → Except CoreError PyVal
  | .num a, .num b => .ok (.num (a + b))
  | .num _, .nan => .ok .nan
  | .nan, .num _ => .ok .nan
  | .nan, .nan => .ok .nan
  | .nan, .inf => .ok .nan
  | .nan, .ninf => .ok .nan
  | .inf, .nan => .ok .nan
  | .ninf, .nan => .ok .nan
  | .inf, .inf => .ok .inf
  | .inf, .ninf => .ok .nan
  | .ninf, .inf => .ok .nan
  | .ninf, .ninf => .ok .ninf
  | .num _, .inf => .ok .inf
  | .inf, .num _ => .ok .inf
  | .num _, .ninf => .ok .ninf
  | .ninf, .num _ => .ok .ninf
  | .nonNumStr, .nonNumStr => .ok .nonNumStr
  | _, _ => .error .typeError

/-- A pandas DataFrame holding one financial statement: row labels, column
labels, and a cell table keyed by (row label, column label). A cell not
present in the table reads as NaN, as in pandas. -/
structure DataFrame where
  rowLabels : List String
  colLabels : List String
  cells : List (String × String × PyVal)
  deriving DecidableEq, Repr

/-- Lookup of a cell in a cell table by row label and column label (NaN
when absent, as in pandas). -/
def cellLookup (cells : List (String × String × PyVal)) (r c : String) : PyVal :=
  ((cells.find? fun t => t.1 == r && t.2.1 == c).map fun t => t.2.2).getD .nan

/-- Value of the cell at row `r`, column `c` (NaN when absent). -/
def DataFrame.cellVal (df : DataFrame) (r c : String) : PyVal :=
  cellLookup df.cells r c

/-- pandas `df.empty`: true when either axis has length zero. -/
def DataFrame.isEmpty (df : DataFrame) : Bool :=
  df.rowLabels.isEmpty || df.colLabels.isEmpty

/-- pandas `df.T`: transpose, swapping the two axes. -/
def DataFrame.T (df : DataFrame) : DataFrame :=
  { rowLabels := df.colLabels
    colLabels := df.rowLabels
    cells := df.cells.map fun t => (t.2.1, t.1, t.2.2) }

/-- Embedding of `df[key][0]` on an (already transposed) statement:
raises `KeyError` when `key` is not a column, otherwise takes the value in
the first row (the most recent period); an empty row axis raises. -/
def dfGetItem (df : DataFrame) (k : String) : Except CoreError PyVal :=
  if k ∈ df.colLabels then
    match df.rowLabels with
    | [] => .error .indexError
    | r :: _ => .ok (df.cellVal r k)
  else .error .keyError

/-- Embedding of `df.get(key, [0])[0]` on an (already transposed)
statement: the value in the first row when `key` is a column, and the
Python int `0` (first element of the default list `[0]`) when it is not. -/
def dfGetDefault (df : DataFrame) (k : String) : Except CoreError PyVal :=
  if k ∈ df.colLabels then
    match df.rowLabels with
    | [] => .error .indexError
    | r :: _ => .ok (df.cellVal r k)
  else .ok (.num 0)

/-- The code's access path for one line item of a raw statement: transpose
once (`inc, bal, cf = inc.T, bal.T, cf.T`), then index the transposed frame
by the line-item name as a column (`df[key][0]`). -/
def extractField (df : DataFrame) (k : String) : Except CoreError PyVal :=
  dfGetItem df.T k

/-- Embedding of the `ratios` dict literal (src/pages/Prediction.py, live
code): the three statements are transposed once, then the eight ratios are
computed in source order; every required item is read with `df[key][0]`
(raising on a missing key) and the four optional items with
`df.get(key, [0])[0]` (defaulting to `0`). The match chain sequences the
lookups in exactly the order Python evaluates them inside the dict
literal, propagating the first raised exception. -/
def ratios (inc bal cf : DataFrame) : Except CoreError (List (String × PyFloat)) :=
  match dfGetDefault cf.T "dividends paid" with
  | .error e => .error e
  | .ok dprNum =>
    match dfGetItem inc.T "net income" with
    | .error e => .error e
    | .ok ni =>
      match dfGetItem bal.T "total stockholder equity" with
      | .error e => .error e
      | .ok se =>
        match dfGetItem bal.T "total assets" with
        | .error e => .error e
        | .ok ta =>
          match dfGetItem inc.T "gross profit" with
          | .error e => .error e
          | .ok gp =>
            match dfGetItem inc.T "total revenue" with
            | .error e => .error e
            | .ok tr =>
              match dfGetDefault cf.T "free cash flow" with
              | .error e => .error e
              | .ok fcfNum =>
                match dfGetItem cf.T "total cash from operating activities" with
                | .error e => .error e
                | .ok ocf =>
                  match dfGetItem bal.T "cash" with
                  | .error e => .error e
                  | .ok cashv =>
                    match dfGetDefault bal.T "short/long term debt" with
                    | .error e => .error e
                    | .ok sd1 =>
                      match dfGetDefault bal.T "long term debt" with
                      | .error e => .error e
                      | .ok sd2 =>
                        match pyAdd sd1 sd2 with
                        | .error e => .error e
                        | .ok sumDebt =>
                          match dfGetItem bal.T "total liabilities" with
                          | .error e => .error e
                          | .ok tl =>
                            .ok [("dpr", safe_div dprNum ni),
                                 ("roe", safe_div ni se),
                                 ("roa", safe_div ni ta),
                                 ("GProf", safe_div gp tr),
                                 ("npm", safe_div ni tr),
                                 ("fcf_ocf", safe_div fcfNum ocf),
                                 ("cash_debt", safe_div cashv sumDebt),
                                 ("de_ratio", safe_div tl se)]

/-- Embedding of `input_df.fillna(0, inplace=True)`: every NaN entry of the
one-row ratio frame is replaced by `0`; other entries (finite or infinite)
are left unchanged. -/
def fillna0 (l : List (String × PyFloat)) : List (String × PyFloat) :=
  l.map fun p => if p.2 = .nan then (p.1, .fin 0) else p

/-- The full core pipeline of the live fetch-and-predict handler: the
empty-statement gate (`MissingDataError` of the spec), then the `ratios`
dict, then the `fillna(0)` sanitization. -/
def buildRatioRecord (inc bal cf : DataFrame) :
    Except CoreError (List (String × PyFloat)) :=
  if inc.isEmpty || bal.isEmpty || cf.isEmpty then .error .missingData
  else (ratios inc bal cf).map fillna0

/-- Concrete quarterly income statement with the line items the live code
reads, valued as in the spec's worked scenario. -/
def incEx : DataFrame :=
  { rowLabels := ["net income", "total revenue", "gross profit"]
    colLabels := ["q1"]
    cells := [("net income", "q1", .num 100),
              ("total revenue", "q1", .num 500),
              ("gross profit", "q1", .num 200)] }

/-- Concrete balance sheet for the worked scenario: note total
liabilities (300) differs from short-term plus long-term debt (200). -/
def balEx : DataFrame :=
  { rowLabels := ["total stockholder equity", "total assets",
                  "short/long term debt", "long term debt", "cash",
                  "total liabilities"]
    colLabels := ["q1"]
    cells := [("total stockholder equity", "q1", .num 1000),
              ("total assets", "q1", .num 2000),
              ("short/long term debt", "q1", .num 50),
              ("long term debt", "q1", .num 150),
              ("cash", "q1", .num 80),
              ("total liabilities", "q1", .num 300)] }

/-- Concrete cash-flow statement for the worked scenario. -/
def cfEx : DataFrame :=
  { rowLabels := ["dividends paid", "free cash flow",
                  "total cash from operating activities"]
    colLabels := ["q1"]
    cells := [("dividends paid", "q1", .num 20),
              ("free cash flow", "q1", .num 90),
              ("total cash from operating activities", "q1", .num 120)] }

/-- A statement with zero periods and zero line items. -/
def emptyDF : DataFrame :=
  { rowLabels := [], colLabels := [], cells := [] }

/-- A non-empty income statement that lacks the required line item
`net income`. -/
def incNoNI : DataFrame :=
  { rowLabels := ["total revenue"]
    colLabels := ["q1"]
    cells := [("total revenue", "q1", .num 500)] }

/-- An income statement whose `net income` cell holds IEEE positive
infinity. -/
def incInf : DataFrame :=
  { rowLabels := ["net income", "total revenue", "gross profit"]
    colLabels := ["q1"]
    cells := [("net income", "q1", .inf),
              ("total revenue", "q1", .num 500),
              ("gross profit", "q1", .num 200)] }

/-- A balance sheet whose `total liabilities` cell holds IEEE positive
infinity. -/
def balInfTL : DataFrame :=
  { rowLabels := ["total stockholder equity", "total assets",
                  "short/long term debt", "long term debt", "cash",
                  "total liabilities"]
    colLabels := ["q1"]
    cells := [("total stockholder equity", "q1", .num 1000),
              ("total assets", "q1", .num 2000),
              ("short/long term debt", "q1", .num 50),
              ("long term debt", "q1", .num 150),
              ("cash", "q1", .num 80),
              ("total liabilities", "q1", .inf)] }

/-- A one-cell statement whose single line item is stored as a row, the
orientation the code assumes. Its transpose stores the same line item as a
column. -/
def oneRow : DataFrame :=
  { rowLabels := ["net income"]
    colLabels := ["q1"]
    cells := [("net income", "q1", .num 5)] }

/-- A non-empty cash-flow statement that lacks the optional line item
`dividends paid`. -/
def cfNoDiv : DataFrame :=
  { rowLabels := ["free cash flow", "total cash from operating activities"]
    colLabels := ["q1"]
    cells := [("free cash flow", "q1", .num 90),
              ("total cash from operating activities", "q1", .num 120)] }

lemma fillna0_map_fst (l : List (String × PyFloat)) :
    (fillna0 l).map Prod.fst = l.map Prod.fst := by
  unfold fillna0
  induction l with
  | nil => rfl
  | cons a l ih =>
    by_cases h : a.2 = PyFloat.nan <;> simp [h, ih]

lemma mem_fillna0_ne_nan (l : List (String × PyFloat)) (p : String × PyFloat)
    (hp : p ∈ fillna0 l) : p.2 ≠ PyFloat.nan := by
  unfold fillna0 at hp
  rcases List.mem_map.1 hp with ⟨q, _, hq⟩
  by_cases h : q.2 = PyFloat.nan
  · simp [h] at hq
    subst hq
    simp
  · simp [h] at hq
    subst hq
    exact h

lemma mem_fillna0_of_mem (l : List (String × PyFloat)) (p : String × PyFloat)
    (hp : p ∈ l) (hn : p.2 ≠ PyFloat.nan) : p ∈ fillna0 l := by
  unfold fillna0
  refine List.mem_map.2 ⟨p, hp, ?_⟩
  simp [hn]

lemma mem_fillna0_zero (l : List (String × PyFloat)) (p : String × PyFloat)
    (hp : p ∈ l) (hn : p.2 = PyFloat.nan) : (p.1, PyFloat.fin 0) ∈ fillna0 l := by
  unfold fillna0
  exact List.mem_map.2 ⟨p, hp, by simp [hn]⟩

lemma buildRatioRecord_ok_elim (inc bal cf : DataFrame)
    (rec : List (String × PyFloat))
    (h : buildRatioRecord inc bal cf = .ok rec) :
    (inc.isEmpty || bal.isEmpty || cf.isEmpty) = false ∧
      ∃ l, ratios inc bal cf = .ok l ∧ rec = fillna0 l := by
  unfold buildRatioRecord at h
  split at h
  · exact absurd h (by simp)
  · next hg =>
    refine ⟨by simpa using hg, ?_⟩
    cases hr : ratios inc bal cf with
    | error e => rw [hr] at h; exact absurd h (by simp [Except.map])
    | ok l =>
      rw [hr] at h
      simp only [Except.map] at h
      exact ⟨l, rfl, (Except.ok.inj h).symm⟩

lemma ratios_ok_elim (inc bal cf : DataFrame) (l : List (String × PyFloat))
    (h : ratios inc bal cf = .ok l) :
    ∃ dprNum ni se ta gp tr fcfNum ocf cashv sd1 sd2 sumDebt tl,
      dfGetDefault cf.T "dividends paid" = .ok dprNum ∧
      dfGetItem inc.T "net income" = .ok ni ∧
      dfGetItem bal.T "total stockholder equity" = .ok se ∧
      dfGetItem bal.T "total assets" = .ok ta ∧
      dfGetItem inc.T "gross profit" = .ok gp ∧
      dfGetItem inc.T "total revenue" = .ok tr ∧
      dfGetDefault cf.T "free cash flow" = .ok fcfNum ∧
      dfGetItem cf.T "total cash from operating activities" = .ok ocf ∧
      dfGetItem bal.T "cash" = .ok cashv ∧
      dfGetDefault bal.T "short/long term debt" = .ok sd1 ∧
      dfGetDefault bal.T "long term debt" = .ok sd2 ∧
      pyAdd sd1 sd2 = .ok sumDebt ∧
      dfGetItem bal.T "total liabilities" = .ok tl ∧
      l = [("dpr", safe_div dprNum ni),
           ("roe", safe_div ni se),
           ("roa", safe_div ni ta),
           ("GProf", safe_div gp tr),
           ("npm", safe_div ni tr),
           ("fcf_ocf", safe_div fcfNum ocf),
           ("cash_debt", safe_div cashv sumDebt),
           ("de_ratio", safe_div tl se)] := by
  unfold ratios at h
  cases hq1 : dfGetDefault cf.T "dividends paid" with
  | error e => simp only [hq1] at h; exact Except.noConfusion h
  | ok dprNum =>
    simp only [hq1] at h
    cases hq2 : dfGetItem inc.T "net income" with
    | error e => simp only [hq2] at h; exact Except.noConfusion h
    | ok ni =>
      simp only [hq2] at h
      cases hq3 : dfGetItem bal.T "total stockholder equity" with
      | error e => simp only [hq3] at h; exact Except.noConfusion h
      | ok se =>
        simp only [hq3] at h
        cases hq4 : dfGetItem bal.T "total assets" with
        | error e => simp only [hq4] at h; exact Except.noConfusion h
        | ok ta =>
          simp only [hq4] at h
          cases hq5 : dfGetItem inc.T "gross profit" with
          | error e => simp only [hq5] at h; exact Except.noConfusion h
          | ok gp =>
            simp only [hq5] at h
            cases hq6 : dfGetItem inc.T "total revenue" with
            | error e => simp only [hq6] at h; exact Except.noConfusion h
            | ok tr =>
              simp only [hq6] at h
              cases hq7 : dfGetDefault cf.T "free cash flow" with
              | error e => simp only [hq7] at h; exact Except.noConfusion h
              | ok fcfNum =>
                simp only [hq7] at h
                cases hq8 : dfGetItem cf.T "total cash from operating activities" with
                | error e => simp only [hq8] at h; exact Except.noConfusion h
                | ok ocf =>
                  simp only [hq8] at h
                  cases hq9 : dfGetItem bal.T "cash" with
                  | error e => simp only [hq9] at h; exact Except.noConfusion h
                  | ok cashv =>
                    simp only [hq9] at h
                    cases hq10 : dfGetDefault bal.T "short/long term debt" with
                    | error e => simp only [hq10] at h; exact Except.noConfusion h
                    | ok sd1 =>
                      simp only [hq10] at h
                      cases hq11 : dfGetDefault bal.T "long term debt" with
                      | error e => simp only [hq11] at h; exact Except.noConfusion h
                      | ok sd2 =>
                        simp only [hq11] at h
                        cases hq12 : pyAdd sd1 sd2 with
                        | error e => simp only [hq12] at h; exact Except.noConfusion h
                        | ok sumDebt =>
                          simp only [hq12] at h
                          cases hq13 : dfGetItem bal.T "total liabilities" with
                          | error e => simp only [hq13] at h; exact Except.noConfusion h
                          | ok tl =>
                            simp only [hq13] at h
                            exact ⟨dprNum, ni, se, ta, gp, tr, fcfNum, ocf, cashv, sd1, sd2, sumDebt, tl,
                              rfl, rfl, rfl, rfl, rfl, rfl, rfl, rfl, rfl, rfl, rfl, hq12, rfl, (Except.ok.inj h).symm⟩

lemma dfGetDefault_ok_of_rows (df : DataFrame) (k : String)
    (h : df.rowLabels ≠ []) : ∃ v, dfGetDefault df k = .ok v := by
  unfold dfGetDefault
  split
  · cases hr : df.rowLabels with
    | nil => exact absurd hr h
    | cons r rs => exact ⟨_, rfl⟩
  · exact ⟨_, rfl⟩

/-- C2: if any one, two, or all three statements are empty, the pipeline
fails with MissingDataError before any field extraction or ratio
computation. -/
theorem C2_empty_gate (inc bal cf : DataFrame)
    (h : (inc.isEmpty || bal.isEmpty || cf.isEmpty) = true) :
    buildRatioRecord inc bal cf = .error .missingData := by
  unfold buildRatioRecord
  rw [h]
  rfl

theorem C2_empty_gate_witness :
    buildRatioRecord emptyDF balEx cfEx = .error .missingData ∧
      buildRatioRecord emptyDF emptyDF cfEx = .error .missingData ∧
      buildRatioRecord emptyDF emptyDF emptyDF = .error .missingData :=
  ⟨C2_empty_gate _ _ _ rfl, C2_empty_gate _ _ _ rfl, C2_empty_gate _ _ _ rfl⟩

/-- C3 counterexample: safe_div passes an infinite operand through
unchanged, so it does not return 0 in every case where an operand is
non-finite. -/
theorem C3_counterexample :
    safe_div PyVal.inf (PyVal.num 2) = PyFloat.inf ∧ PyFloat.inf ≠ PyFloat.fin 0 :=
  ⟨by with_unfolding_all rfl, by decide⟩

/-- C3 amended: safe_div never raises and is exactly the guarded quotient:
it returns 0 whenever the truthiness guard `a and b and b != 0` fails
(zero or None operand), whenever a float conversion fails (None or a
non-numeric string), and whenever the division raises; and in every
remaining case it returns exactly the Python float quotient, which may be
NaN or infinite when an operand is non-finite. -/
theorem C3_guarded_quotient :
    (∀ a b : PyVal, (pyTruthy a && pyTruthy b && pyNeZero b) = false →
        safe_div a b = PyFloat.fin 0) ∧
    (∀ a b : PyVal, pyFloatConv a = none → safe_div a b = PyFloat.fin 0) ∧
    (∀ a b : PyVal, pyFloatConv b = none → safe_div a b = PyFloat.fin 0) ∧
    (∀ a b : PyVal, ∀ fa fb : PyFloat,
        pyFloatConv a = some fa → pyFloatConv b = some fb →
        pyDiv fa fb = none → safe_div a b = PyFloat.fin 0) ∧
    (∀ a b : PyVal, ∀ fa fb r : PyFloat,
        (pyTruthy a && pyTruthy b && pyNeZero b) = true →
        pyFloatConv a = some fa → pyFloatConv b = some fb →
        pyDiv fa fb = some r → safe_div a b = r) := by
  refine ⟨?_, ?_, ?_, ?_, ?_⟩
  · intro a b hg
    unfold safe_div
    rw [hg]
    rfl
  · intro a b hfa
    unfold safe_div
    split
    · simp [hfa]
    · rfl
  · intro a b hfb
    unfold safe_div
    split
    · cases hfa : pyFloatConv a <;> simp [hfa, hfb]
    · rfl
  · intro a b fa fb hfa hfb hd
    unfold safe_div
    split
    · simp [hfa, hfb, hd]
    · rfl
  · intro a b fa fb r hg hfa hfb hd
    unfold safe_div
    rw [if_pos hg]
    simp [hfa, hfb, hd]

theorem C3_guarded_quotient_witness :
    safe_div PyVal.pyNone (PyVal.num 2) = PyFloat.fin 0 ∧
      safe_div PyVal.nonNumStr (PyVal.num 2) = PyFloat.fin 0 ∧
      safe_div (PyVal.num 3) (PyVal.num 2) = PyFloat.fin (3 / 2) ∧
      safe_div PyVal.nan (PyVal.num 2) = PyFloat.nan :=
  ⟨C3_guarded_quotient.1 PyVal.pyNone (PyVal.num 2) rfl,
    C3_guarded_quotient.2.1 PyVal.nonNumStr (PyVal.num 2) rfl,
    C3_guarded_quotient.2.2.2.2 (PyVal.num 3) (PyVal.num 2)
      (PyFloat.fin 3) (PyFloat.fin 2) (PyFloat.fin (3 / 2))
      (by with_unfolding_all rfl) rfl rfl (by with_unfolding_all rfl),
    C3_guarded_quotient.2.2.2.2 PyVal.nan (PyVal.num 2)
      PyFloat.nan (PyFloat.fin 2) PyFloat.nan
      (by with_unfolding_all rfl) rfl rfl (by with_unfolding_all rfl)⟩

/-- C4: safe_div returns 0 on a zero denominator and on a zero numerator,
and returns the exact quotient on finite nonzero operands. -/
theorem C4_safe_div_values :
    (∀ a : ℚ, safe_div (.num a) (.num 0) = PyFloat.fin 0) ∧
    (∀ b : ℚ, b ≠ 0 → safe_div (.num 0) (.num b) = PyFloat.fin 0) ∧
    (∀ a b : ℚ, a ≠ 0 → b ≠ 0 → safe_div (.num a) (.num b) = PyFloat.fin (a / b)) := by
  refine ⟨?_, ?_, ?_⟩
  · intro a
    unfold safe_div
    simp [pyTruthy, pyNeZero]
  · intro b hb
    unfold safe_div
    simp [pyTruthy]
  · intro a b ha hb
    unfold safe_div
    rw [if_pos]
    · simp [pyFloatConv, pyDiv, hb]
    · simp [pyTruthy, pyNeZero, ha, hb]

theorem C4_safe_div_values_witness :
    safe_div (.num 5) (.num 0) = PyFloat.fin 0 ∧
      safe_div (.num 0) (.num 7) = PyFloat.fin 0 ∧
      safe_div (.num 3) (.num 2) = PyFloat.fin (3 / 2) :=
  ⟨C4_safe_div_values.1 5, C4_safe_div_values.2.1 7 (by norm_num),
    C4_safe_div_values.2.2 3 2 (by norm_num) (by norm_num)⟩

/-- C9: buildRatioRecord is a pure function; identical input statements
produce identical ratio records. -/
theorem C9_deterministic (i1 b1 c1 i2 b2 c2 : DataFrame)
    (hi : i1 = i2) (hb : b1 = b2) (hc : c1 = c2) :
    buildRatioRecord i1 b1 c1 = buildRatioRecord i2 b2 c2 := by
  rw [hi, hb, hc]

theorem C9_deterministic_witness :
    buildRatioRecord incEx balEx cfEx = buildRatioRecord incEx balEx cfEx :=
  C9_deterministic incEx balEx cfEx incEx balEx cfEx rfl rfl rfl

/-- C8 counterexample: looking up the same line item in the same data in
the two orientations gives different results; with line items as columns
the access path raises KeyError instead of returning the value. -/
theorem C8_counterexample :
    extractField oneRow "net income" = .ok (.num 5) ∧
      extractField oneRow.T "net income" = .error .keyError :=
  ⟨by with_unfolding_all rfl, by with_unfolding_all rfl⟩

/-- C8 amended: the extraction path is fixed to one orientation. It
succeeds exactly when the line-item name is a row label of the raw
statement (and a period column exists), and raises KeyError whenever the
name is not among the row labels, as happens when line items arrive as
columns. -/
theorem C8_row_oriented_lookup :
    (∀ df : DataFrame, ∀ k : String, k ∉ df.rowLabels →
        extractField df k = .error .keyError) ∧
    (∀ df : DataFrame, ∀ k : String, k ∈ df.rowLabels → df.colLabels ≠ [] →
        ∃ v, extractField df k = .ok v) := by
  constructor
  · intro df k hk
    unfold extractField dfGetItem DataFrame.T
    simp only
    rw [if_neg hk]
  · intro df k hk hc
    unfold extractField dfGetItem DataFrame.T
    simp only
    rw [if_pos hk]
    cases hcl : df.colLabels with
    | nil => exact absurd hcl hc
    | cons r rs => exact ⟨_, rfl⟩

theorem C8_row_oriented_lookup_witness :
    extractField oneRow "quick ratio" = .error .keyError ∧
      ∃ v, extractField oneRow "net income" = .ok v :=
  ⟨C8_row_oriented_lookup.1 oneRow "quick ratio" (by decide),
    C8_row_oriented_lookup.2 oneRow "net income" (by decide) (by decide)⟩

/-- C5 counterexample: with all three statements non-empty but the income
statement lacking `net income`, the pipeline raises KeyError — a hard
failure distinct from MissingDataError — instead of defaulting the missing
line item to 0. -/
theorem C5_counterexample :
    buildRatioRecord incNoNI balEx cfEx = .error .keyError ∧
      CoreError.keyError ≠ CoreError.missingData :=
  ⟨by with_unfolding_all rfl, by decide⟩

/-- C5 amended: only the four optional line items read through
`df.get(key, [0])[0]` are zero-defaulted when absent; a missing required
line item (here `net income`) makes the core raise KeyError, a hard
failure other than MissingDataError. -/
theorem C5_partial_zero_default :
    (∀ df : DataFrame, ∀ k : String, k ∉ df.colLabels →
        dfGetDefault df k = .ok (.num 0)) ∧
    (∀ inc bal cf : DataFrame,
        (inc.isEmpty || bal.isEmpty || cf.isEmpty) = false →
        "net income" ∉ inc.rowLabels →
        buildRatioRecord inc bal cf = .error .keyError) := by
  constructor
  · intro df k hk
    unfold dfGetDefault
    rw [if_neg hk]
  · intro inc bal cf hg hni
    have hcf : cf.colLabels ≠ [] := by
      intro hnil
      have : cf.isEmpty = true := by
        unfold DataFrame.isEmpty
        rw [hnil]
        simp
      simp [this] at hg
    obtain ⟨v, hv⟩ := dfGetDefault_ok_of_rows cf.T "dividends paid" hcf
    have hni' : dfGetItem inc.T "net income" = .error .keyError := by
      unfold dfGetItem DataFrame.T
      simp only
      rw [if_neg hni]
    unfold buildRatioRecord
    rw [hg]
    unfold ratios
    simp only [hv, hni']
    rfl

theorem C5_partial_zero_default_witness :
    dfGetDefault balEx.T "zzz" = .ok (.num 0) ∧
      buildRatioRecord incNoNI balEx cfEx = .error .keyError :=
  ⟨C5_partial_zero_default.1 balEx.T "zzz" (by decide),
    C5_partial_zero_default.2 incNoNI balEx cfEx (by with_unfolding_all rfl) (by decide)⟩

/-- C7 counterexample: the post-step replaces only null entries; an
infinite de_ratio entry survives sanitization unreplaced (and the live
code emits no warning at all). -/
theorem C7_counterexample :
    (buildRatioRecord incEx balInfTL cfEx).map (fun l => l.lookup "de_ratio") =
      .ok (some PyFloat.inf) ∧ PyFloat.inf.isFinite = false :=
  ⟨by with_unfolding_all rfl, rfl⟩

/-- C7 amended: the post-step is `fillna(0)`: each null (NaN) entry is
replaced by 0 and every other entry, finite or infinite, is kept
unchanged; no warning signal is emitted in any case. -/
theorem C7_fillna_only_nan :
    (∀ inc bal cf : DataFrame, ∀ rec : List (String × PyFloat),
        buildRatioRecord inc bal cf = .ok rec → ∀ p ∈ rec, p.2 ≠ PyFloat.nan) ∧
    (∀ l : List (String × PyFloat), ∀ p ∈ l, p.2 ≠ PyFloat.nan → p ∈ fillna0 l) ∧
    (∀ l : List (String × PyFloat), ∀ p ∈ l, p.2 = PyFloat.nan →
        (p.1, PyFloat.fin 0) ∈ fillna0 l) := by
  refine ⟨?_, mem_fillna0_of_mem, mem_fillna0_zero⟩
  intro inc bal cf rec h p hp
  obtain ⟨-, l, _, hrec⟩ := buildRatioRecord_ok_elim _ _ _ _ h
  exact mem_fillna0_ne_nan l p (hrec ▸ hp)

theorem C7_fillna_only_nan_witness :
    PyFloat.inf ≠ PyFloat.nan ∧
      ("x", PyFloat.inf) ∈ fillna0 [("x", PyFloat.inf)] ∧
      ("y", PyFloat.fin 0) ∈ fillna0 [("y", PyFloat.nan)] :=
  ⟨by decide,
    C7_fillna_only_nan.2.1 [("x", PyFloat.inf)] ("x", PyFloat.inf)
      (List.mem_singleton.2 rfl) (by decide),
    C7_fillna_only_nan.2.2 [("y", PyFloat.nan)] ("y", PyFloat.nan)
      (List.mem_singleton.2 rfl) rfl⟩

/-- C1 counterexample: on a fully populated triple the produced record has
eight entries, not sixteen (cash_lt is absent), and de_ratio is computed
from total liabilities (300/1000 = 3/10), not from total debt over equity
(200/1000 = 1/5). -/
theorem C1_counterexample :
    (buildRatioRecord incEx balEx cfEx).map
        (fun l => (l.length, l.lookup "cash_lt", l.lookup "de_ratio")) =
      .ok (8, none, some (PyFloat.fin (3 / 10))) ∧
    safe_div (.num (50 + 150)) (.num 1000) = PyFloat.fin (1 / 5) ∧
    PyFloat.fin (3 / 10) ≠ PyFloat.fin (1 / 5) := by
  refine ⟨by with_unfolding_all rfl, by with_unfolding_all rfl, ?_⟩
  intro hcontra
  have h310 : (3 / 10 : ℚ) = 1 / 5 := PyFloat.fin.inj hcontra
  norm_num at h310

/-- C1 amended: on any triple passing the empty gate on which all lookups
succeed, buildRatioRecord produces exactly eight entries following the
code's pairing (dividends paid/net income, net income/equity, net
income/assets, gross profit/revenue, net income/revenue, free cash
flow/operating cash flow, cash/(short-long debt + long debt), and total
liabilities/equity — not total debt/equity), then applies fillna(0). -/
theorem C1_eight_ratio_table (inc bal cf : DataFrame)
    (dprNum ni se ta gp tr fcfNum ocf cashv sd1 sd2 sumDebt tl : PyVal)
    (hg : (inc.isEmpty || bal.isEmpty || cf.isEmpty) = false)
    (h1 : dfGetDefault cf.T "dividends paid" = .ok dprNum)
    (h2 : dfGetItem inc.T "net income" = .ok ni)
    (h3 : dfGetItem bal.T "total stockholder equity" = .ok se)
    (h4 : dfGetItem bal.T "total assets" = .ok ta)
    (h5 : dfGetItem inc.T "gross profit" = .ok gp)
    (h6 : dfGetItem inc.T "total revenue" = .ok tr)
    (h7 : dfGetDefault cf.T "free cash flow" = .ok fcfNum)
    (h8 : dfGetItem cf.T "total cash from operating activities" = .ok ocf)
    (h9 : dfGetItem bal.T "cash" = .ok cashv)
    (h10 : dfGetDefault bal.T "short/long term debt" = .ok sd1)
    (h11 : dfGetDefault bal.T "long term debt" = .ok sd2)
    (h12 : pyAdd sd1 sd2 = .ok sumDebt)
    (h13 : dfGetItem bal.T "total liabilities" = .ok tl) :
    buildRatioRecord inc bal cf =
      .ok (fillna0
        [("dpr", safe_div dprNum ni),
         ("roe", safe_div ni se),
         ("roa", safe_div ni ta),
         ("GProf", safe_div gp tr),
         ("npm", safe_div ni tr),
         ("fcf_ocf", safe_div fcfNum ocf),
         ("cash_debt", safe_div cashv sumDebt),
         ("de_ratio", safe_div tl se)]) := by
  unfold buildRatioRecord
  rw [hg]
  unfold ratios
  simp only [h1, h2, h3, h4, h5, h6, h7, h8, h9, h10, h11, h12, h13]
  rfl

theorem C1_eight_ratio_table_witness :
    buildRatioRecord incEx balEx cfEx =
      .ok (fillna0
        [("dpr", safe_div (.num 20) (.num 100)),
         ("roe", safe_div (.num 100) (.num 1000)),
         ("roa", safe_div (.num 100) (.num 2000)),
         ("GProf", safe_div (.num 200) (.num 500)),
         ("npm", safe_div (.num 100) (.num 500)),
         ("fcf_ocf", safe_div (.num 90) (.num 120)),
         ("cash_debt", safe_div (.num 80) (.num (50 + 150))),
         ("de_ratio", safe_div (.num 300) (.num 1000))]) :=
  C1_eight_ratio_table incEx balEx cfEx
    (.num 20) (.num 100) (.num 1000) (.num 2000) (.num 200) (.num 500)
    (.num 90) (.num 120) (.num 80) (.num 50) (.num 150) (.num (50 + 150)) (.num 300)
    (by with_unfolding_all rfl) (by with_unfolding_all rfl)
    (by with_unfolding_all rfl) (by with_unfolding_all rfl)
    (by with_unfolding_all rfl) (by with_unfolding_all rfl)
    (by with_unfolding_all rfl) (by with_unfolding_all rfl)
    (by with_unfolding_all rfl) (by with_unfolding_all rfl)
    (by with_unfolding_all rfl) (by with_unfolding_all rfl)
    (by with_unfolding_all rfl) (by with_unfolding_all rfl)

/-- C6 counterexample: with an infinite net income cell the produced
record contains an infinite roa entry, so not every entry of every
produced record is finite. -/
theorem C6_counterexample :
    (buildRatioRecord incInf balEx cfEx).map (fun l => l.lookup "roa") =
      .ok (some PyFloat.inf) ∧ PyFloat.inf.isFinite = false :=
  ⟨by with_unfolding_all rfl, rfl⟩

/-- C6 amended: for every input combination, no entry of a produced
record is NaN (nor null, which the entry type cannot represent): the
fillna(0) post-step replaces every NaN with 0. An entry whose underlying
optional input is unavailable is 0.0 rather than omitted (shown for the
dpr entry when `dividends paid` is absent). Entries are not guaranteed
finite: infinite entries — from non-finite input cells, and in real
double arithmetic also from finite quotients that overflow the float
range — survive the post-step unreplaced. -/
theorem C6_no_nan_entries :
    (∀ inc bal cf : DataFrame, ∀ rec : List (String × PyFloat),
        buildRatioRecord inc bal cf = .ok rec → ∀ p ∈ rec, p.2 ≠ PyFloat.nan) ∧
    (∀ inc bal cf : DataFrame, ∀ rec : List (String × PyFloat),
        buildRatioRecord inc bal cf = .ok rec →
        "dividends paid" ∉ cf.rowLabels → ("dpr", PyFloat.fin 0) ∈ rec) := by
  constructor
  · intro inc bal cf rec h p hp
    obtain ⟨-, l, _, hrec⟩ := buildRatioRecord_ok_elim _ _ _ _ h
    exact mem_fillna0_ne_nan l p (hrec ▸ hp)
  · intro inc bal cf rec h hnd
    obtain ⟨-, l, hl, hrec⟩ := buildRatioRecord_ok_elim _ _ _ _ h
    obtain ⟨dprNum, ni, se, ta, gp, tr, fcfNum, ocf, cashv, sd1, sd2, sumDebt, tl,
      h1, h2, h3, h4, h5, h6, h7, h8, h9, h10, h11, h12, h13, hlist⟩ :=
      ratios_ok_elim _ _ _ _ hl
    have hz : dprNum = PyVal.num 0 := by
      unfold dfGetDefault DataFrame.T at h1
      simp only at h1
      rw [if_neg hnd] at h1
      exact (Except.ok.inj h1).symm
    have hdpr0 : safe_div dprNum ni = PyFloat.fin 0 := by
      rw [hz]
      unfold safe_div
      simp [pyTruthy]
    subst hlist
    subst hrec
    rw [hdpr0]
    exact mem_fillna0_of_mem _ _ (List.mem_cons_self _ _) (by simp)

theorem C6_no_nan_entries_witness :
    PyFloat.fin (1 / 5) ≠ PyFloat.nan ∧
      ("dpr", PyFloat.fin 0) ∈
        ([("dpr", PyFloat.fin 0), ("roe", PyFloat.fin (1 / 10)),
          ("roa", PyFloat.fin (1 / 20)), ("GProf", PyFloat.fin (2 / 5)),
          ("npm", PyFloat.fin (1 / 5)), ("fcf_ocf", PyFloat.fin (3 / 4)),
          ("cash_debt", PyFloat.fin (2 / 5)), ("de_ratio", PyFloat.fin (3 / 10))] :
          List (String × PyFloat)) :=
  ⟨C6_no_nan_entries.1 incEx balEx cfEx
      [("dpr", PyFloat.fin (1 / 5)), ("roe", PyFloat.fin (1 / 10)),
       ("roa", PyFloat.fin (1 / 20)), ("GProf", PyFloat.fin (2 / 5)),
       ("npm", PyFloat.fin (1 / 5)), ("fcf_ocf", PyFloat.fin (3 / 4)),
       ("cash_debt", PyFloat.fin (2 / 5)), ("de_ratio", PyFloat.fin (3 / 10))]
      (by with_unfolding_all rfl) ("dpr", PyFloat.fin (1 / 5))
      (List.mem_cons_self _ _),
    C6_no_nan_entries.2 incEx balEx cfNoDiv
      [("dpr", PyFloat.fin 0), ("roe", PyFloat.fin (1 / 10)),
       ("roa", PyFloat.fin (1 / 20)), ("GProf", PyFloat.fin (2 / 5)),
       ("npm", PyFloat.fin (1 / 5)), ("fcf_ocf", PyFloat.fin (3 / 4)),
       ("cash_debt", PyFloat.fin (2 / 5)), ("de_ratio", PyFloat.fin (3 / 10))]
      (by with_unfolding_all rfl) (by decide)⟩

/-- C10: whenever the pipeline succeeds, the record's keys are exactly
dpr, roe, roa, GProf, npm, fcf_ocf, cash_debt, de_ratio in that order,
and none of the other eight vocabulary names ever appears. -/
theorem C10_fixed_keys (inc bal cf : DataFrame) (rec : List (String × PyFloat))
    (h : buildRatioRecord inc bal cf = .ok rec) :
    rec.map Prod.fst =
        ["dpr", "roe", "roa", "GProf", "npm", "fcf_ocf", "cash_debt", "de_ratio"] ∧
      "cash_lt" ∉ rec.map Prod.fst ∧ "ocf_lct" ∉ rec.map Prod.fst ∧
      "totdebt_invcap" ∉ rec.map Prod.fst ∧ "debt_ebitda" ∉ rec.map Prod.fst ∧
      "intcov_ratio" ∉ rec.map Prod.fst ∧ "curr_ratio" ∉ rec.map Prod.fst ∧
      "cash_ratio" ∉ rec.map Prod.fst ∧ "quick_ratio" ∉ rec.map Prod.fst := by
  obtain ⟨-, l, hl, hrec⟩ := buildRatioRecord_ok_elim _ _ _ _ h
  obtain ⟨dprNum, ni, se, ta, gp, tr, fcfNum, ocf, cashv, sd1, sd2, sumDebt, tl,
    -, -, -, -, -, -, -, -, -, -, -, -, -, hlist⟩ := ratios_ok_elim _ _ _ _ hl
  subst hlist
  subst hrec
  have hmap : (fillna0
      [("dpr", safe_div dprNum ni), ("roe", safe_div ni se),
       ("roa", safe_div ni ta), ("GProf", safe_div gp tr),
       ("npm", safe_div ni tr), ("fcf_ocf", safe_div fcfNum ocf),
       ("cash_debt", safe_div cashv sumDebt),
       ("de_ratio", safe_div tl se)]).map Prod.fst =
      ["dpr", "roe", "roa", "GProf", "npm", "fcf_ocf", "cash_debt", "de_ratio"] := by
    rw [fillna0_map_fst]
    rfl
  rw [hmap]
  exact ⟨rfl, by decide, by decide, by decide, by decide, by decide, by decide,
    by decide, by decide⟩

theorem C10_fixed_keys_witness :
    (([("dpr", PyFloat.fin (1 / 5)), ("roe", PyFloat.fin (1 / 10)),
       ("roa", PyFloat.fin (1 / 20)), ("GProf", PyFloat.fin (2 / 5)),
       ("npm", PyFloat.fin (1 / 5)), ("fcf_ocf", PyFloat.fin (3 / 4)),
       ("cash_debt", PyFloat.fin (2 / 5)), ("de_ratio", PyFloat.fin (3 / 10))] :
        List (String × PyFloat)).map Prod.fst =
      ["dpr", "roe", "roa", "GProf", "npm", "fcf_ocf", "cash_debt", "de_ratio"]) :=
  (C10_fixed_keys incEx balEx cfEx _ (by with_unfolding_all rfl)).1
